import Mathlib

unseal Rat.add Rat.mul Rat.inv Rat.sub

/-!
Verification of the TopRacer quiz engine (assets/js/script.js) against its
natural-language specification.  The JavaScript is shallowly embedded: the
dynamic values the code manipulates are modelled with explicit inductive
types, JavaScript numbers are modelled as rationals (NaN and the infinities
are excluded - no quiz datum carries them), and every call to Math.random()
draws from an explicit oracle (a list of naturals, reduced modulo the
requested bound) so that theorems quantify over all possible random choices.
-/

namespace TopRacer

/-- Values of the dynamic language as far as normalizePopulation inspects
them: null/undefined, a number, a string, or any other runtime value. -/
inductive JSVal where
  | vnull
  | vnum (q : ℚ)
  | vstr (s : String)
  | vother
  deriving DecidableEq

/-- Math.round: round half toward positive infinity. -/
def jsRound (q : ℚ) : ℤ := Int.floor (q + 1/2)

/-- Math.floor. -/
def jsFloor (q : ℚ) : ℤ := Int.floor q

/-- Parse a maximal leading run of decimal digits; returns the digits and
the remaining characters. -/
def takeDigits : List Char → List Char × List Char
  | [] => ([], [])
  | c :: cs =>
    if c.isDigit then
      let p := takeDigits cs
      (c :: p.1, p.2)
    else ([], c :: cs)

/-- Numeric value of a digit run. -/
def digitsToNat (ds : List Char) : ℕ :=
  ds.foldl (fun acc c => 10 * acc + (c.toNat - 48)) 0

/-- parseFloat on the already-cleaned string: optional sign, integer digits,
optional fractional digits, reading only a numeric leading segment of the
input.  Exponent notation and Infinity are not modelled (the quiz data never
carries them); an input with no leading numeric segment parses to none,
standing for NaN. -/
def parseFloatQ (s : String) : Option ℚ :=
  let p0 : ℚ × List Char :=
    match s.data with
    | '-' :: rest => (-1, rest)
    | '+' :: rest => (1, rest)
    | cs => (1, cs)
  let pInt := takeDigits p0.2
  let pFrac :=
    match pInt.2 with
    | '.' :: rest => takeDigits rest
    | cs => (([] : List Char), cs)
  if pInt.1.isEmpty ∧ pFrac.1.isEmpty then none
  else
    some (p0.1 * ((digitsToNat pInt.1 : ℚ) +
      (digitsToNat pFrac.1 : ℚ) / (10 : ℚ) ^ pFrac.1.length))

/-- The value.replace of normalizePopulation: drop commas and whitespace. -/
def stripCommasSpaces (s : String) : String :=
  String.mk (s.data.filter (fun c => !(c == ',' || c.isWhitespace)))

/-- The unit heuristic shared by the numeric and string branches of
normalizePopulation. -/
def normalizeNum (n : ℚ) : ℤ :=
  if n ≥ 1000000 then jsRound n
  else if n < 10 then jsRound (n * 1000000)
  else if n < 10000 then jsRound (n * 1000)
  else jsRound n

/-- normalizePopulation from script.js: null/undefined gives 0, a string is
cleaned and parsed (NaN gives 0), a number is used directly, any other value
gives 0; the parsed magnitude then goes through the unit heuristic. -/
def normalizePopulation : JSVal → ℤ
  | .vnull => 0
  | .vstr s =>
    match parseFloatQ (stripCommasSpaces s) with
    | none => 0
    | some n => normalizeNum n
  | .vnum n => normalizeNum n
  | .vother => 0

/-- Digit grouping of Number.prototype.toLocaleString for whole numbers in
the en-US default locale: a comma every three digits.  Operates on the
reversed digit list. -/
def groupRev : List Char → List Char
  | a :: b :: c :: d :: rest => a :: b :: c :: ',' :: groupRev (d :: rest)
  | l => l

/-- toLocaleString of a natural number. -/
def groupNat (n : ℕ) : String :=
  String.mk ((groupRev (toString n).data.reverse).reverse)

/-- toLocaleString of an integer. -/
def groupInt (n : ℤ) : String :=
  if n < 0 then "-" ++ groupNat n.natAbs else groupNat n.natAbs

/-- Left-pad with zeros to d characters. -/
def padLeftZeros (s : String) (d : ℕ) : String :=
  String.mk (List.replicate (d - s.length) '0') ++ s

/-- Number.prototype.toFixed: round to d decimal places (ties toward the
larger value) and print with exactly d decimals. -/
def toFixed (d : ℕ) (q : ℚ) : String :=
  let n : ℤ := Int.floor (q * (10 : ℚ) ^ d + 1/2)
  let m : ℕ := n.natAbs
  let ip := m / 10 ^ d
  let fp := m % 10 ^ d
  let sgn := if n < 0 then "-" else ""
  if d = 0 then sgn ++ toString ip
  else sgn ++ toString ip ++ "." ++ padLeftZeros (toString fp) d

/-- formatPopulation from script.js. -/
def formatPopulation (pop : ℤ) : String :=
  if pop ≥ 1000000000 then toFixed 2 ((pop : ℚ) / 1000000000) ++ " billion"
  else if pop ≥ 1000000 then toFixed 1 ((pop : ℚ) / 1000000) ++ " million"
  else groupInt pop

/-- formatArea from script.js. -/
def formatArea (area : ℤ) : String := groupInt area ++ " km²"

/-- formatGDP from script.js. -/
def formatGDP (gdp : ℤ) : String :=
  if gdp ≥ 1000000000000 then "$" ++ toFixed 2 ((gdp : ℚ) / 1000000000000) ++ " trillion"
  else if gdp ≥ 1000000000 then "$" ++ toFixed 1 ((gdp : ℚ) / 1000000000) ++ " billion"
  else if gdp ≥ 1000000 then "$" ++ toFixed 0 ((gdp : ℚ) / 1000000) ++ " million"
  else "$" ++ groupInt gdp

/-! ## Randomness oracle and array helpers -/

/-- Oracle for Math.random: a list of naturals.  Each occurrence of
Math.floor(Math.random() * k) draws the next entry, reduced modulo k, so that
all and only the indices the browser could produce are covered.  An exhausted
oracle keeps answering 0. -/
abbrev Rng := List ℕ

/-- One draw of Math.floor(Math.random() * k). -/
def randBelow (r : Rng) (k : ℕ) : ℕ × Rng :=
  match r with
  | [] => (0, [])
  | n :: rest => (if k = 0 then 0 else n % k, rest)

/-- The destructuring swap [a[i], a[j]] = [a[j], a[i]] used by shuffleArray;
out-of-range indices leave the list unchanged (they never occur in the code). -/
def swapL {α : Type} (l : List α) (i j : ℕ) : List α :=
  match l.get? i, l.get? j with
  | some a, some b => (l.set i b).set j a
  | _, _ => l

/-- The downward loop of the Fisher-Yates shuffle: at counter value i+1 the
code draws j below i+2 and swaps positions i+1 and j. -/
def fyAux {α : Type} (l : List α) (r : Rng) : ℕ → List α × Rng
  | 0 => (l, r)
  | i + 1 =>
    let p := randBelow r (i + 2)
    fyAux (swapL l (i + 1) p.1) p.2 i

/-- shuffleArray from script.js (Fisher-Yates over a copy). -/
def shuffleArray {α : Type} (l : List α) (r : Rng) : List α × Rng :=
  fyAux l r (l.length - 1)

/-- The spread of a Set literal: deduplicate keeping first occurrences, as
new Set([...]) iteration order does. -/
def jsSetDedup {α : Type} [DecidableEq α] : List α → List α
  | [] => []
  | a :: l => a :: jsSetDedup (l.filter (fun x => decide (x ≠ a)))
  termination_by l => l.length
  decreasing_by
    exact Nat.lt_succ_of_le (List.length_filter_le _ _)

/-! ## Answer option values -/

/-- An answer option value as the quiz manipulates it: a string, the
undefined value (an out-of-range array index on degraded data), or a
flag-image object with name, flag and alt fields. -/
inductive Opt where
  | str (s : String)
  | undef
  | flagObj (name flag alt : String)
  deriving DecidableEq

/-- Template-literal rendering of an option value, as in the explanation
strings. -/
def Opt.render : Opt → String
  | .str s => s
  | .undef => "undefined"
  | .flagObj _ _ _ => "[object Object]"

/-- arr[i] in the dynamic language: the element, or undefined past the end. -/
def optIdx (l : List String) (i : ℕ) : Opt :=
  match l.get? i with
  | some s => Opt.str s
  | none => Opt.undef

/-- v || d for a possibly-undefined string v: undefined and the empty string
are falsy and pick d. -/
def jsOrStr (v : Opt) (d : String) : String :=
  match v with
  | .str s => if s = "" then d else s
  | _ => d

/-- v || d for an optional string field. -/
def jsOrS (v : Option String) (d : String) : String :=
  match v with
  | some s => if s = "" then d else s
  | none => d

/-! ## Country records -/

/-- The internal country record shape both data-source mappers produce.
Numeric facts are modelled as integers (every value the two sources deliver
to these fields is whole-valued after normalization). -/
structure Country where
  name : String
  capital : Opt
  population : ℤ
  area : ℤ
  region : String
  languages : List String
  currencies : List String
  timezones : List String
  gdp : ℤ
  flag : String
  flagAlt : String
  popularity : ℤ
  deriving DecidableEq

/-- The question categories of generateQuestion. -/
inductive QType where
  | population
  | area
  | gdp
  | capital
  | currency
  | languages
  | timezone
  | flag
  deriving DecidableEq

/-- questionTypes from generateQuestion, in source order. -/
def questionTypes : List QType :=
  [.population, .area, .gdp, .capital, .currency, .languages, .timezone, .flag]

/-- The question descriptor returned by generateMultipleChoiceQuestion.
media carries the pre-shuffle option objects for flag questions (the code
builds the media object before shuffling, and shuffleArray copies). -/
structure Question where
  qtype : QType
  question : String
  correctAnswer : Opt
  options : List Opt
  explanation : String
  media : Option (List Opt)
  country : String
  deriving DecidableEq

/-! ## Distractor generators -/

/-- generatePopulationOptions from script.js: the formatted correct value
followed by the three difficulty-scaled multiples (any difficulty string
other than easy/medium falls to the hard multipliers, matching the nested
conditional in the code). -/
def generatePopulationOptions (difficulty : String) (correctPop : ℤ) : List String :=
  let multipliers : List ℚ :=
    if difficulty = "easy" then [1/2, 2, 5]
    else if difficulty = "medium" then [7/10, 3/2, 3]
    else [17/20, 23/20, 7/5]
  formatPopulation correctPop ::
    multipliers.map (fun mult => formatPopulation (jsFloor ((correctPop : ℚ) * mult)))

/-- generateAreaOptions from script.js. -/
def generateAreaOptions (difficulty : String) (correctArea : ℤ) : List String :=
  let multipliers : List ℚ :=
    if difficulty = "easy" then [2/5, 5/2, 6]
    else if difficulty = "medium" then [3/5, 17/10, 7/2]
    else [4/5, 6/5, 8/5]
  formatArea correctArea ::
    multipliers.map (fun mult => formatArea (jsFloor ((correctArea : ℚ) * mult)))

/-- generateGDPOptions from script.js. -/
def generateGDPOptions (difficulty : String) (correctGDP : ℤ) : List String :=
  let multipliers : List ℚ :=
    if difficulty = "easy" then [3/10, 2, 7]
    else if difficulty = "medium" then [1/2, 9/5, 4]
    else [3/4, 5/4, 19/10]
  formatGDP correctGDP ::
    multipliers.map (fun mult => formatGDP (jsFloor ((correctGDP : ℚ) * mult)))

/-- The candidate-sampling while loop shared by the capital, currency,
language and timezone generators: while fewer than 4 options and candidates
remain, splice out a random candidate and append it unless already present.
Fuel is the entry candidate count; each iteration splices away exactly one
candidate, so the fuel never runs out before the loop condition fails. -/
def samplePickAux : ℕ → List Opt → List Opt → Rng → List Opt × Rng
  | 0, options, _, r => (options, r)
  | fuel + 1, options, cands, r =>
    if options.length < 4 ∧ 0 < cands.length then
      let p := randBelow r cands.length
      match cands.get? p.1 with
      | some x =>
        samplePickAux fuel (if x ∈ options then options else options ++ [x])
          (cands.eraseIdx p.1) p.2
      | none => (options, p.2)
    else (options, r)

/-- Entry point of the sampling loop. -/
def samplePick (options cands : List Opt) (r : Rng) : List Opt × Rng :=
  samplePickAux cands.length options cands r

/-- generateCapitalOptions from script.js. -/
def generateCapitalOptions (country : Country) (pool : List Country) (r : Rng) :
    List Opt × Rng :=
  let otherCapitals :=
    (pool.filter (fun c => decide (c.name ≠ country.name ∧ c.capital ≠ Opt.str "N/A"))).map
      Country.capital
  samplePick [country.capital] otherCapitals r

/-- generateCurrencyOptions from script.js; the seed entry is
country.currencies[0], which is the undefined value on an empty list. -/
def generateCurrencyOptions (country : Country) (pool : List Country) (r : Rng) :
    List Opt × Rng :=
  let otherCurrencies :=
    (pool.filter (fun c => decide (c.name ≠ country.name ∧ 0 < c.currencies.length))).flatMap
      (fun c => c.currencies.map Opt.str)
  samplePick [optIdx country.currencies 0] otherCurrencies r

/-- The fixed fallback list of 16 common world languages. -/
def commonLanguages : List String :=
  ["English", "Spanish", "French", "Arabic", "Hindi", "Bengali", "Portuguese", "Russian",
   "German", "Japanese", "Turkish", "Italian", "Korean", "Vietnamese", "Urdu", "Persian"]

/-- The absolute-fallback padding loop of generateLanguageOptions: walk the
common list, appending entries distinct from the correct answer and not yet
chosen, until 4 options are reached. -/
def padCommonAux : List Opt → String → List String → List Opt
  | options, _, [] => options
  | options, correct, l :: rest =>
    if options.length < 4 then
      padCommonAux
        (if l ≠ correct ∧ Opt.str l ∉ options then options ++ [Opt.str l] else options)
        correct rest
    else options

/-- generateLanguageOptions from script.js: the correct language seeds the
list only when it is not the Unknown sentinel; candidates are the other
languages of the other pool members merged and deduplicated with the common
list; after
sampling and padding, an Unknown correct answer forces slot 0 to English
when English is not already present. -/
def generateLanguageOptions (country : Country) (pool : List Country) (r : Rng) :
    List Opt × Rng :=
  let correct := jsOrStr (optIdx country.languages 0) "Unknown"
  let options0 : List Opt := if correct ≠ "Unknown" then [Opt.str correct] else []
  let otherLanguages :=
    ((pool.filter (fun c => decide (c.name ≠ country.name ∧ 0 < c.languages.length))).flatMap
      (fun c => c.languages)).filter (fun l => decide (l ≠ "" ∧ l ≠ "Unknown"))
  let languagePool :=
    (jsSetDedup (otherLanguages ++ commonLanguages)).filter (fun l => decide (l ≠ correct))
  let p := samplePick options0 (languagePool.map Opt.str) r
  let padded := padCommonAux p.1 correct commonLanguages
  let final :=
    if correct = "Unknown" ∧ 0 < padded.length ∧ Opt.str "English" ∉ padded
    then padded.set 0 (Opt.str "English") else padded
  (final, p.2)

/-- The fixed list of common timezones used as distractors. -/
def commonTimezones : List String :=
  ["UTC", "UTC+01:00", "UTC+02:00", "UTC+03:00", "UTC+04:00", "UTC+05:00",
   "UTC+05:30", "UTC+06:00", "UTC+07:00", "UTC+08:00", "UTC+09:00", "UTC+10:00",
   "UTC-05:00", "UTC-04:00", "UTC-03:00", "UTC-06:00", "UTC-07:00", "UTC-08:00",
   "America/New_York", "America/Chicago", "America/Denver", "America/Los_Angeles",
   "Europe/London", "Europe/Paris", "Europe/Berlin", "Europe/Moscow",
   "Asia/Tokyo", "Asia/Shanghai", "Asia/Dubai", "Asia/Kolkata",
   "Australia/Sydney", "Pacific/Auckland"]

/-- The synthetic-offset fallback loop of generateTimezoneOptions.  The
JavaScript loop retries unboundedly and terminates with probability one;
the embedding explores the oracle up to the given fuel, which is more than
any terminating browser run of the loop consumes before four options exist
or the oracle is exhausted on repeats. -/
def tzFallbackAux : ℕ → List Opt → Rng → List Opt × Rng
  | 0, options, r => (options, r)
  | fuel + 1, options, r =>
    if options.length < 4 then
      let p := randBelow r 12
      let fb := Opt.str ("UTC+" ++ toString p.1 ++ ":00")
      tzFallbackAux fuel (if fb ∈ options then options else options ++ [fb]) p.2
    else (options, r)

/-- generateTimezoneOptions from script.js; the seed entry is
country.timezones[0], which is the undefined value on an empty list. -/
def generateTimezoneOptions (country : Country) (pool : List Country) (r : Rng) :
    List Opt × Rng :=
  let otherTimezones :=
    (pool.filter (fun c => decide (c.name ≠ country.name ∧ 0 < c.timezones.length))).flatMap
      (fun c => c.timezones)
  let allTimezones := jsSetDedup (otherTimezones ++ commonTimezones)
  let p := samplePick [optIdx country.timezones 0] (allTimezones.map Opt.str) r
  tzFallbackAux 64 p.1 p.2

/-- The sampling loop of generateFlagOptions: unlike the other list
categories it pushes every spliced country without a duplicate check. -/
def flagPickAux : ℕ → List Opt → List Country → Rng → List Opt × Rng
  | 0, options, _, r => (options, r)
  | fuel + 1, options, cands, r =>
    if options.length < 4 ∧ 0 < cands.length then
      let p := randBelow r cands.length
      match cands.get? p.1 with
      | some other =>
        flagPickAux fuel (options ++ [Opt.flagObj other.name other.flag other.flagAlt])
          (cands.eraseIdx p.1) p.2
      | none => (options, p.2)
    else (options, r)

/-- generateFlagOptions from script.js. -/
def generateFlagOptions (country : Country) (pool : List Country) (r : Rng) :
    List Opt × Rng :=
  let otherCountries := pool.filter (fun c => decide (c.name ≠ country.name ∧ c.flag ≠ ""))
  flagPickAux otherCountries.length
    [Opt.flagObj country.name country.flag country.flagAlt] otherCountries r

/-! ## Question construction -/

/-- The switch body of generateMultipleChoiceQuestion for a chosen subject
country: per-category prompt, correct answer, raw options, explanation and
media, followed by the single shuffle of the returned options. -/
def buildQuestion (difficulty : String) (qtype : QType) (country : Country)
    (pool : List Country) (r : Rng) : Question × Rng :=
  match qtype with
  | .population =>
    let correctAnswer := formatPopulation country.population
    let options := (generatePopulationOptions difficulty country.population).map Opt.str
    let p := shuffleArray options r
    ({ qtype := .population
       question := "What is the approximate population of " ++ country.name ++ "?"
       correctAnswer := Opt.str correctAnswer
       options := p.1
       explanation :=
         country.name ++ " has a population of approximately " ++ correctAnswer ++ "."
       media := none
       country := country.name }, p.2)
  | .area =>
    let correctAnswer := formatArea country.area
    let options := (generateAreaOptions difficulty country.area).map Opt.str
    let p := shuffleArray options r
    ({ qtype := .area
       question :=
         "What is the total land area of " ++ country.name ++ " in square kilometers?"
       correctAnswer := Opt.str correctAnswer
       options := p.1
       explanation := country.name ++ " has a total area of " ++ correctAnswer ++ "."
       media := none
       country := country.name }, p.2)
  | .gdp =>
    let correctAnswer := formatGDP (country.population * 15000)
    let options := (generateGDPOptions difficulty (country.population * 15000)).map Opt.str
    let p := shuffleArray options r
    ({ qtype := .gdp
       question := "What is the approximate GDP of " ++ country.name ++ "?"
       correctAnswer := Opt.str correctAnswer
       options := p.1
       explanation :=
         country.name ++ " has an estimated GDP of approximately " ++ correctAnswer ++ "."
       media := none
       country := country.name }, p.2)
  | .capital =>
    let q0 := generateCapitalOptions country pool r
    let p := shuffleArray q0.1 q0.2
    ({ qtype := .capital
       question := "What is the capital city of " ++ country.name ++ "?"
       correctAnswer := country.capital
       options := p.1
       explanation :=
         "The capital of " ++ country.name ++ " is " ++ country.capital.render ++ "."
       media := none
       country := country.name }, p.2)
  | .currency =>
    let correctAnswer := jsOrStr (optIdx country.currencies 0) "Unknown"
    let q0 := generateCurrencyOptions country pool r
    let p := shuffleArray q0.1 q0.2
    ({ qtype := .currency
       question := "What currency is used in " ++ country.name ++ "?"
       correctAnswer := Opt.str correctAnswer
       options := p.1
       explanation := country.name ++ " uses " ++ correctAnswer ++ "."
       media := none
       country := country.name }, p.2)
  | .languages =>
    let correctAnswer := jsOrStr (optIdx country.languages 0) "Unknown"
    let q0 := generateLanguageOptions country pool r
    let p := shuffleArray q0.1 q0.2
    ({ qtype := .languages
       question := "Which languages are spoken in " ++ country.name ++ "?"
       correctAnswer := Opt.str correctAnswer
       options := p.1
       explanation :=
         correctAnswer ++ " is one of the official languages spoken in " ++
           country.name ++ "."
       media := none
       country := country.name }, p.2)
  | .timezone =>
    let correctAnswer := optIdx country.timezones 0
    let q0 := generateTimezoneOptions country pool r
    let p := shuffleArray q0.1 q0.2
    ({ qtype := .timezone
       question := "What is the time zone of " ++ country.name ++ "?"
       correctAnswer := correctAnswer
       options := p.1
       explanation :=
         "The time zone of " ++ country.name ++ " is " ++ correctAnswer.render ++ "."
       media := none
       country := country.name }, p.2)
  | .flag =>
    let q0 := generateFlagOptions country pool r
    let p := shuffleArray q0.1 q0.2
    ({ qtype := .flag
       question := "What does the flag of " ++ country.name ++ " look like?"
       correctAnswer := Opt.str country.flag
       options := p.1
       explanation := "This is what the flag of " ++ country.name ++ " looks like."
       media := some q0.1
       country := country.name }, p.2)

/-- generateMultipleChoiceQuestion from script.js: draw the subject country
at random from the pool, then build the per-category question.  An empty
pool makes the JavaScript dereference undefined and throw; that is the none
result. -/
def generateMultipleChoiceQuestion (difficulty : String) (qtype : QType)
    (pool : List Country) (r : Rng) : Option (Question × Rng) :=
  let p := randBelow r pool.length
  match pool.get? p.1 with
  | none => none
  | some country => some (buildQuestion difficulty qtype country pool p.2)

/-! ## Country data provider -/

/-- The name-to-ISO-code lookup table of getCountryCode. -/
def countryCodes : List (String × String) :=
  [("United States", "us"), ("China", "cn"), ("India", "in"), ("Brazil", "br"),
   ("Russia", "ru"), ("Japan", "jp"), ("Germany", "de"), ("United Kingdom", "gb"),
   ("France", "fr"), ("Italy", "it"), ("Canada", "ca"), ("South Korea", "kr"),
   ("Spain", "es"), ("Australia", "au"), ("Mexico", "mx"), ("Indonesia", "id"),
   ("Netherlands", "nl"), ("Saudi Arabia", "sa"), ("Turkey", "tr"), ("Switzerland", "ch"),
   ("Poland", "pl"), ("Belgium", "be"), ("Sweden", "se"), ("Argentina", "ar"),
   ("Norway", "no"), ("Austria", "at"), ("United Arab Emirates", "ae"), ("Ireland", "ie"),
   ("Israel", "il"), ("Singapore", "sg"), ("Denmark", "dk"), ("South Africa", "za"),
   ("Egypt", "eg"), ("Philippines", "ph"), ("Pakistan", "pk"), ("Vietnam", "vn"),
   ("Bangladesh", "bd"), ("Chile", "cl"), ("Colombia", "co"), ("Finland", "fi"),
   ("Portugal", "pt"), ("Greece", "gr"), ("New Zealand", "nz"), ("Peru", "pe"),
   ("Czech Republic", "cz"), ("Romania", "ro"), ("Iraq", "iq"), ("Qatar", "qa"),
   ("Kazakhstan", "kz"), ("Hungary", "hu"), ("Kuwait", "kw"), ("Morocco", "ma"),
   ("Ukraine", "ua"), ("Ethiopia", "et"), ("Kenya", "ke"), ("Ecuador", "ec"),
   ("Dominican Republic", "do"), ("Guatemala", "gt"), ("Oman", "om"), ("Venezuela", "ve"),
   ("Luxembourg", "lu"), ("Bulgaria", "bg"), ("Costa Rica", "cr"), ("Uruguay", "uy"),
   ("Croatia", "hr"), ("Tanzania", "tz"), ("Lithuania", "lt"), ("Slovenia", "si"),
   ("Serbia", "rs"), ("Ghana", "gh"), ("Jordan", "jo"), ("Tunisia", "tn"),
   ("Bolivia", "bo"), ("Ivory Coast", "ci"), ("Paraguay", "py"), ("Libya", "ly"),
   ("Uganda", "ug"), ("Panama", "pa"), ("Latvia", "lv"), ("Estonia", "ee"),
   ("Nepal", "np"), ("Cameroon", "cm"), ("Bahrain", "bh"), ("Honduras", "hn"),
   ("Iceland", "is"), ("Trinidad and Tobago", "tt"), ("Senegal", "sn"), ("Cambodia", "kh"),
   ("Cyprus", "cy"), ("Zimbabwe", "zw"), ("Papua New Guinea", "pg"), ("Zambia", "zm"),
   ("Albania", "al"), ("Mozambique", "mz"), ("Botswana", "bw"), ("Gabon", "ga"),
   ("Jamaica", "jm"), ("Malta", "mt"), ("Mauritius", "mu"), ("Brunei", "bn"),
   ("Mongolia", "mn"), ("Armenia", "am"), ("Namibia", "na"), ("Madagascar", "mg"),
   ("Nicaragua", "ni"), ("Macedonia", "mk"), ("Burkina Faso", "bf"), ("Mali", "ml"),
   ("Bahamas", "bs"), ("Haiti", "ht"), ("Benin", "bj"), ("Rwanda", "rw"),
   ("Niger", "ne"), ("Guinea", "gn"), ("Malawi", "mw"), ("Tajikistan", "tj"),
   ("Montenegro", "me"), ("Kosovo", "xk"), ("Kyrgyzstan", "kg"), ("Moldova", "md"),
   ("Barbados", "bb"), ("Fiji", "fj"), ("Togo", "tg"), ("Liberia", "lr"),
   ("Mauritania", "mr"), ("Suriname", "sr"), ("Maldives", "mv"), ("Guyana", "gy")]

/-- getCountryCode from script.js: table lookup with the "un" fallback. -/
def getCountryCode (countryName : String) : String :=
  match countryCodes.lookup countryName with
  | some code => code
  | none => "un"

/-- The currency field of a primary-source payload: an object with a name,
a bare string, or absent/other. -/
inductive CurrencyVal where
  | obj (name : Option String)
  | strv (s : String)
  | missing
  deriving DecidableEq

/-- The languages field of a primary-source payload: an array of strings, a
comma-delimited string, or absent/other. -/
inductive LangVal where
  | arr (ls : List String)
  | strv (s : String)
  | missing
  deriving DecidableEq

/-- One element of a primary-source (Ninja) country response. -/
structure NinjaCountry where
  name : Option String
  capital : Option String
  population : JSVal
  surface_area : Option ℤ
  region : Option String
  currency : CurrencyVal
  languages : LangVal
  timezone : Option String
  gdp : Option ℤ
  deriving DecidableEq

/-- v || 0 for an optional numeric field. -/
def jsOrZ (v : Option ℤ) : ℤ :=
  match v with
  | some n => n
  | none => 0

/-- mapNinjaCountry from script.js: none when the response is not a
non-empty array, otherwise the mapped record built from the first element. -/
def mapNinjaCountry (data : List NinjaCountry) (countryName : String) : Option Country :=
  match data with
  | [] => none
  | country :: _ =>
    let normalizedPopulation := normalizePopulation country.population
    let languages : List String :=
      match country.languages with
      | .arr ls => ls
      | .strv s =>
        if s ≠ "" then ((s.splitOn ",").map String.trim).filter (fun x => decide (x ≠ ""))
        else ["Unknown"]
      | .missing => ["Unknown"]
    let objName : String :=
      match country.currency with
      | .obj (some n) => n
      | _ => ""
    let currencyName : String :=
      if objName = "" then
        match country.currency with
        | .strv s => s
        | _ => "Unknown"
      else objName
    some
      { name := jsOrS country.name countryName
        capital := Opt.str (jsOrS country.capital "N/A")
        population := normalizedPopulation
        area := jsOrZ country.surface_area
        region := jsOrS country.region "Unknown"
        currencies := if currencyName = "" then ["Unknown"] else [currencyName]
        gdp := jsOrZ country.gdp
        languages := languages
        timezones := [jsOrS country.timezone "UTC"]
        flag := "https://flagcdn.com/w320/" ++ getCountryCode countryName ++ ".png"
        flagAlt := "Flag of " ++ countryName
        popularity := normalizedPopulation }

/-- One country of the secondary bulk-source (REST Countries) payload.
Optional fields stand for absent upstream data; currency objects are
modelled by their name field. -/
structure RestCountry where
  nameCommon : String
  capital : Option (List String)
  population : Option ℤ
  area : Option ℤ
  region : Option String
  languages : Option (List String)
  currencies : Option (List String)
  timezones : Option (List String)
  flagsPng : Option String
  flagsSvg : Option String
  flagsAlt : Option String
  deriving DecidableEq

/-- The per-country mapping inside loadFromRestCountries. -/
def mapRestCountry (country : RestCountry) : Country :=
  { name := country.nameCommon
    capital :=
      match country.capital with
      | some caps => optIdx caps 0
      | none => Opt.str "N/A"
    population := jsOrZ country.population
    area := jsOrZ country.area
    region := jsOrS country.region "Unknown"
    languages :=
      match country.languages with
      | some ls => ls
      | none => []
    currencies :=
      match country.currencies with
      | some cs => cs
      | none => []
    timezones :=
      match country.timezones with
      | some ts => ts
      | none => []
    flag := jsOrS country.flagsPng (jsOrS country.flagsSvg "")
    flagAlt := jsOrS country.flagsAlt ("Flag of " ++ country.nameCommon)
    gdp := 0
    popularity := jsOrZ country.population }

/-- loadFromRestCountries from script.js: map every payload country and keep
those with positive population. -/
def loadFromRestCountries (data : List RestCountry) : List Country :=
  (data.map mapRestCountry).filter (fun c => decide (0 < c.population))

/-! ## Quiz session engine -/

/-- One entry of the difficultySettings table. -/
structure DifficultySetting where
  countries : ℕ
  popularOnly : Bool
  deriving DecidableEq

/-- The own keys of the difficultySettings object literal of the engine
constructor. -/
def difficultySettings (level : String) : Option DifficultySetting :=
  if level = "easy" then some { countries := 30, popularOnly := true }
  else if level = "medium" then some { countries := 100, popularOnly := false }
  else if level = "hard" then some { countries := 200, popularOnly := false }
  else none

/-- The property names every plain object literal inherits from
Object.prototype; looking any of these up on the difficultySettings literal
yields a truthy value (a built-in function, or the prototype object itself
for the __proto__ accessor). -/
def objectPrototypeProps : List String :=
  ["constructor", "hasOwnProperty", "isPrototypeOf", "propertyIsEnumerable",
   "toLocaleString", "toString", "valueOf", "__defineGetter__", "__defineSetter__",
   "__lookupGetter__", "__lookupSetter__", "__proto__"]

/-- Outcome of the property access difficultySettings[level]: a settings
record for an own key, a truthy inherited Object.prototype member, or the
falsy undefined value for every other name. -/
inductive SettingsLookup where
  | own (st : DifficultySetting)
  | inherited
  | absent
  deriving DecidableEq

/-- The full property resolution of difficultySettings[level], prototype
chain included. -/
def difficultySettingsLookup (level : String) : SettingsLookup :=
  match difficultySettings level with
  | some st => .own st
  | none => if level ∈ objectPrototypeProps then .inherited else .absent

/-- getCountriesForDifficulty from script.js: top-50 restriction for
popular-only settings, then the per-difficulty cap.  On an inherited
Object.prototype member, settings.popularOnly and settings.countries are
both undefined, so the pool is the whole list copied by slice(0, undefined);
on undefined settings the settings.popularOnly access throws, the none
result. -/
def getCountriesForDifficulty (difficulty : String) (countries : List Country) :
    Option (List Country) :=
  match difficultySettingsLookup difficulty with
  | .own settings =>
    let pool := if settings.popularOnly then countries.take 50 else countries
    some (pool.take settings.countries)
  | .inherited => some countries
  | .absent => none

/-- The mutable engine fields of the QuizEngine instance.  The counters are
naturals: the code only ever increments them or zeroes them. -/
structure EngineState where
  countries : List Country
  currentQuestion : Option Question
  score : ℕ
  wrong : ℕ
  streak : ℕ
  questionNumber : ℕ
  totalQuestions : ℕ
  difficulty : String
  answeredCurrentQuestion : Bool
  deriving DecidableEq

/-- The result object of checkAnswer. -/
structure CheckResult where
  isCorrect : Bool
  streak : ℕ
  explanation : String
  deriving DecidableEq

/-- checkAnswer from script.js: compare against the correct answer of the
current question, update score/streak (with the multiple-of-3 streak bonus)
or wrong/streak, and mark the question answered.  none stands for the
TypeError thrown when no current question exists. -/
def checkAnswer (s : EngineState) (userAnswer : Opt) :
    Option (EngineState × CheckResult) :=
  match s.currentQuestion with
  | none => none
  | some q =>
    if userAnswer = q.correctAnswer then
      let s1 := { s with score := s.score + 1, streak := s.streak + 1 }
      let s2 :=
        if s1.streak ≥ 3 ∧ s1.streak % 3 = 0 then { s1 with score := s1.score + 1 } else s1
      let s3 := { s2 with answeredCurrentQuestion := true }
      some (s3, { isCorrect := true, streak := s3.streak, explanation := q.explanation })
    else
      let s1 := { s with wrong := s.wrong + 1, streak := 0 }
      let s3 := { s1 with answeredCurrentQuestion := true }
      some (s3, { isCorrect := false, streak := s3.streak, explanation := q.explanation })

/-- generateQuestion from script.js: random category, difficulty pool, then
the multiple-choice builder. -/
def generateQuestion (s : EngineState) (r : Rng) : Option (Question × Rng) :=
  let p := randBelow r questionTypes.length
  match questionTypes.get? p.1 with
  | none => none
  | some t =>
    match getCountriesForDifficulty s.difficulty s.countries with
    | none => none
    | some pool => generateMultipleChoiceQuestion s.difficulty t pool p.2

/-- nextQuestion from script.js: null (the inner none) once the session is
complete, otherwise advance the counter and install a fresh question.  The
outer none stands for a crash inside question generation (empty pool). -/
def nextQuestion (s : EngineState) (r : Rng) :
    Option (EngineState × Rng × Option Question) :=
  if s.questionNumber ≥ s.totalQuestions then some (s, r, none)
  else
    match generateQuestion s r with
    | some (q, r2) =>
      some ({ s with
                questionNumber := s.questionNumber + 1
                currentQuestion := some q
                answeredCurrentQuestion := false }, r2, some q)
    | none => none

/-- reset from script.js. -/
def reset (s : EngineState) : EngineState :=
  { s with
      score := 0
      wrong := 0
      streak := 0
      questionNumber := 0
      currentQuestion := none
      answeredCurrentQuestion := false }

/-- setDifficulty from script.js: any truthy result of the property access
difficultySettings[level] — an own key or an inherited Object.prototype
member — updates the difficulty and resets; only an absent name (undefined,
falsy) is ignored. -/
def setDifficulty (s : EngineState) (level : String) : EngineState :=
  match difficultySettingsLookup level with
  | .absent => s
  | _ => reset { s with difficulty := level }

/-- One correct submission: answer the current question with its own stored
correct answer (the identity used to state the streak-bonus property). -/
def answerCorrectly (s : EngineState) : EngineState :=
  match s.currentQuestion with
  | none => s
  | some q =>
    match checkAnswer s q.correctAnswer with
    | some p => p.1
    | none => s

/-- n question-yielding calls to nextQuestion in sequence; none as soon as a
call crashes or reports completion instead of producing a question. -/
def runNextQuestions : ℕ → EngineState → Rng → Option (EngineState × Rng)
  | 0, s, r => some (s, r)
  | n + 1, s, r =>
    match nextQuestion s r with
    | some (s1, r1, some _) => runNextQuestions n s1 r1
    | _ => none

/-! ## Permutation facts about the shuffle -/

theorem set_get_self {α : Type} : ∀ (l : List α) (i : ℕ) (h : i < l.length),
    l.set i (l.get ⟨i, h⟩) = l := by
  intro l
  induction l with
  | nil => intro i h; simp at h
  | cons y ys ih =>
    intro i h
    cases i with
    | zero => simp
    | succ k => simpa using ih k (by simpa using h)

theorem get_cons_set_perm {α : Type} : ∀ (xs : List α) (j : ℕ) (h : j < xs.length) (x : α),
    (xs.get ⟨j, h⟩ :: xs.set j x).Perm (x :: xs) := by
  intro xs
  induction xs with
  | nil => intro j h; simp at h
  | cons y ys ih =>
    intro j h x
    cases j with
    | zero => simpa using List.Perm.swap x y ys
    | succ k =>
      have hk : k < ys.length := by simpa using h
      have s1 := List.Perm.swap y (ys.get ⟨k, hk⟩) (ys.set k x)
      have s2 := (ih k hk x).cons y
      have s3 := List.Perm.swap x y ys
      simpa using (s1.trans s2).trans s3

theorem set_set_swap_perm {α : Type} : ∀ (l : List α) (i j : ℕ)
    (hi : i < l.length) (hj : j < l.length),
    ((l.set i (l.get ⟨j, hj⟩)).set j (l.get ⟨i, hi⟩)).Perm l := by
  intro l
  induction l with
  | nil => intro i j hi; simp at hi
  | cons y ys ih =>
    intro i j hi hj
    match i, j with
    | 0, 0 => simp
    | 0, k + 1 =>
      have hk : k < ys.length := by simpa using hj
      simpa using get_cons_set_perm ys k hk y
    | m + 1, 0 =>
      have hm : m < ys.length := by simpa using hi
      simpa using get_cons_set_perm ys m hm y
    | m + 1, k + 1 =>
      have hm : m < ys.length := by simpa using hi
      have hk : k < ys.length := by simpa using hj
      simpa using (ih m k hm hk).cons y

theorem swapL_perm {α : Type} (l : List α) (i j : ℕ) : (swapL l i j).Perm l := by
  unfold swapL
  split
  case h_1 a b hi hj =>
    obtain ⟨hi', ha⟩ := List.get?_eq_some.mp hi
    obtain ⟨hj', hb⟩ := List.get?_eq_some.mp hj
    subst ha
    subst hb
    exact set_set_swap_perm l i j hi' hj'
  case h_2 => exact .refl _

theorem fyAux_perm {α : Type} : ∀ (n : ℕ) (l : List α) (r : Rng), (fyAux l r n).1.Perm l := by
  intro n
  induction n with
  | zero => intro l r; exact .refl _
  | succ i ih =>
    intro l r
    simp only [fyAux]
    exact (ih _ _).trans (swapL_perm _ _ _)

theorem shuffleArray_perm {α : Type} (l : List α) (r : Rng) :
    (shuffleArray l r).1.Perm l :=
  fyAux_perm _ l r

theorem generatePopulationOptions_length (d : String) (p : ℤ) :
    (generatePopulationOptions d p).length = 4 := by
  unfold generatePopulationOptions
  split_ifs <;> rfl

theorem generateAreaOptions_length (d : String) (a : ℤ) :
    (generateAreaOptions d a).length = 4 := by
  unfold generateAreaOptions
  split_ifs <;> rfl

theorem generateGDPOptions_length (d : String) (g : ℤ) :
    (generateGDPOptions d g).length = 4 := by
  unfold generateGDPOptions
  split_ifs <;> rfl

/-! ## Claim theorems -/

/-- A degraded-data country record used for counterexamples: its area is 0,
which both upstream mappers produce for unknown areas. -/
def zeroAreaCountry : Country :=
  { name := "Atlantis"
    capital := Opt.str "Aqua"
    population := 7
    area := 0
    region := "Sea"
    languages := ["Atlantean"]
    currencies := ["Shell"]
    timezones := ["UTC"]
    gdp := 0
    flag := "x"
    flagAlt := "flag"
    popularity := 7 }

/-- Claim C1 (counterexample): a question generated from a pool containing a
country of area 0 has four identical options, so the options are not
pairwise distinct and the correct answer occurs four times, not once. -/
theorem C1_counterexample :
    ∃ q r2, generateMultipleChoiceQuestion "easy" QType.area [zeroAreaCountry] [] =
        some (q, r2) ∧
      ¬ (q.options.length = 4 ∧ q.options.Nodup ∧ q.options.count q.correctAnswer = 1) := by
  refine ⟨_, _, rfl, ?_⟩
  decide

/-- Claim C1 (amended): for the numeric categories (population, area, gdp),
every QuestionDescriptor returned by generateMultipleChoiceQuestion, for any
difficulty, any pool and any random choices, has exactly 4 options and the
stored correctAnswer occurs among them; the options need not be pairwise
distinct and the correct answer can occur more than once. -/
theorem C1_options_numeric (difficulty : String) (qtype : QType) (pool : List Country)
    (r : Rng) (q : Question) (r2 : Rng)
    (hty : qtype = QType.population ∨ qtype = QType.area ∨ qtype = QType.gdp)
    (h : generateMultipleChoiceQuestion difficulty qtype pool r = some (q, r2)) :
    q.options.length = 4 ∧ q.correctAnswer ∈ q.options := by
  unfold generateMultipleChoiceQuestion at h
  dsimp only at h
  split at h
  case h_1 => exact absurd h (by simp)
  case h_2 country hc =>
    simp only [Option.some.injEq] at h
    have hq : q = (buildQuestion difficulty qtype country pool
        (randBelow r pool.length).2).1 := by
      rw [h]
    rcases hty with h1 | h1 | h1 <;> subst h1 <;>
      simp only [buildQuestion] at hq <;> subst hq
    · constructor
      · rw [(shuffleArray_perm _ _).length_eq]
        simp [generatePopulationOptions_length]
      · exact ((shuffleArray_perm _ _).mem_iff).mpr
          (by simp [generatePopulationOptions])
    · constructor
      · rw [(shuffleArray_perm _ _).length_eq]
        simp [generateAreaOptions_length]
      · exact ((shuffleArray_perm _ _).mem_iff).mpr
          (by simp [generateAreaOptions])
    · constructor
      · rw [(shuffleArray_perm _ _).length_eq]
        simp [generateGDPOptions_length]
      · exact ((shuffleArray_perm _ _).mem_iff).mpr
          (by simp [generateGDPOptions])

/-- A well-formed country record used by witnesses. -/
def witCountry : Country :=
  { name := "A"
    capital := Opt.str "B"
    population := 1
    area := 1
    region := "R"
    languages := ["L"]
    currencies := ["C"]
    timezones := ["T"]
    gdp := 0
    flag := "g"
    flagAlt := "f"
    popularity := 1 }

/-- Witness for C1_options_numeric at a concrete pool and oracle. -/
theorem C1_options_numeric_witness :
    ∃ q r2, generateMultipleChoiceQuestion "easy" QType.population [witCountry] [] =
        some (q, r2) ∧ q.options.length = 4 ∧ q.correctAnswer ∈ q.options := by
  refine ⟨_, _, rfl, ?_⟩
  exact C1_options_numeric "easy" QType.population [witCountry] [] _ _ (Or.inl rfl) rfl

theorem jsRound_nonneg {q : ℚ} (h : 0 ≤ q) : 0 ≤ jsRound q := by
  unfold jsRound
  exact Int.le_floor.mpr (by push_cast; linarith)

theorem normalizeNum_nonneg {n : ℚ} (h : 0 ≤ n) : 0 ≤ normalizeNum n := by
  unfold normalizeNum
  split_ifs <;> exact jsRound_nonneg (by positivity)

/-- Claim C2 (counterexample): the code maps the numeric input -1 through
the millions heuristic and returns -1000000, not 0, which is also negative. -/
theorem C2_counterexample :
    normalizePopulation (JSVal.vnum (-1)) = -1000000 ∧
      ¬ 0 ≤ normalizePopulation (JSVal.vnum (-1)) := by
  decide

/-- Claim C2 (amended): normalizePopulation maps every non-negative numeric
input (and every string parsing to a non-negative value) to a non-negative
integer, with normalizePopulation(5) = 5000000,
normalizePopulation("5,123") = 5123000,
normalizePopulation(1500000) = 1500000, and 0 on null, other non-numeric
values and unparsable strings; a negative numeric input goes through the
same unit heuristic and can be negative, e.g. -1 gives -1000000. -/
theorem C2_normalizePopulation (q : ℚ) (hq : 0 ≤ q) :
    0 ≤ normalizePopulation (JSVal.vnum q) ∧
    normalizePopulation (JSVal.vnum 5) = 5000000 ∧
    normalizePopulation (JSVal.vstr "5,123") = 5123000 ∧
    normalizePopulation (JSVal.vnum 1500000) = 1500000 ∧
    normalizePopulation JSVal.vnull = 0 ∧
    normalizePopulation JSVal.vother = 0 ∧
    (∀ s, parseFloatQ (stripCommasSpaces s) = none →
      normalizePopulation (JSVal.vstr s) = 0) ∧
    (∀ s n, parseFloatQ (stripCommasSpaces s) = some n → 0 ≤ n →
      0 ≤ normalizePopulation (JSVal.vstr s)) ∧
    normalizePopulation (JSVal.vnum (-1)) = -1000000 := by
  refine ⟨normalizeNum_nonneg hq, by decide, by decide, by decide, rfl, rfl, ?_, ?_, by decide⟩
  · intro s hs
    simp [normalizePopulation, hs]
  · intro s n hs hn
    simpa [normalizePopulation, hs] using normalizeNum_nonneg hn

/-- Witness for C2_normalizePopulation at the concrete input 5. -/
theorem C2_witness : 0 ≤ normalizePopulation (JSVal.vnum 5) :=
  (C2_normalizePopulation 5 (by norm_num)).1

/-- A secondary-source payload country with absent languages, currencies and
timezones fields, as the bulk source can deliver. -/
def bareRestCountry : RestCountry :=
  { nameCommon := "Nowhere"
    capital := none
    population := some 5
    area := none
    region := none
    languages := none
    currencies := none
    timezones := none
    flagsPng := none
    flagsSvg := none
    flagsAlt := none }

/-- Claim C3 (counterexample): the fallback bulk-source mapping pads nothing:
a payload country with absent language, currency and timezone data yields a
CountryRecord whose languages, currencies and timezones are all empty. -/
theorem C3_counterexample :
    ∃ c, loadFromRestCountries [bareRestCountry] = [c] ∧
      c.languages = [] ∧ c.currencies = [] ∧ c.timezones = [] := by
  refine ⟨_, rfl, rfl, rfl, rfl⟩

/-- Claim C3 (amended): every CountryRecord produced by the primary-source
mapping mapNinjaCountry has non-empty currencies and non-empty timezones
(padded with the Unknown/UTC sentinels), and its languages are padded with
the Unknown sentinel whenever the upstream languages field is absent or not
an array/string; records produced by the fallback loadFromRestCountries copy
the upstream sequences directly and can be empty when the upstream data is
absent. -/
theorem C3_record_padding (data : List NinjaCountry) (countryName : String)
    (c : Country) (h : mapNinjaCountry data countryName = some c) :
    c.currencies ≠ [] ∧ c.timezones ≠ [] ∧
    (∀ nc rest, data = nc :: rest → nc.languages = LangVal.missing →
      c.languages = ["Unknown"]) ∧
    (∀ rc, (mapRestCountry rc).languages =
        (match rc.languages with | some ls => ls | none => []) ∧
      (mapRestCountry rc).currencies =
        (match rc.currencies with | some cs => cs | none => []) ∧
      (mapRestCountry rc).timezones =
        (match rc.timezones with | some ts => ts | none => [])) := by
  match data with
  | [] => exact absurd h (by simp [mapNinjaCountry])
  | nc0 :: rest0 =>
    simp only [mapNinjaCountry, Option.some.injEq] at h
    refine ⟨?_, ?_, ?_, fun rc => ⟨rfl, rfl, rfl⟩⟩
    · rw [← h]
      dsimp only
      split_ifs <;> simp
    · rw [← h]
      simp
    · intro nc rest hd hlang
      have h1 : nc0 = nc := by injection hd
      rw [← h, h1, hlang]

/-- Witness for C3_record_padding at a concrete primary-source payload. -/
theorem C3_witness :
    ∃ c, mapNinjaCountry
        [{ name := some "X", capital := none, population := JSVal.vnum 3,
           surface_area := none, region := none, currency := CurrencyVal.missing,
           languages := LangVal.missing, timezone := none, gdp := none }] "X" =
        some c ∧ c.currencies ≠ [] ∧ c.timezones ≠ [] := by
  refine ⟨_, rfl, ?_⟩
  have h := C3_record_padding
    [{ name := some "X", capital := none, population := JSVal.vnum 3,
       surface_area := none, region := none, currency := CurrencyVal.missing,
       languages := LangVal.missing, timezone := none, gdp := none }] "X" _ rfl
  exact ⟨h.1, h.2.1⟩

/-- Submitting the stored correct answer updates exactly score, streak and
the answered flag; the bonus point lands exactly when the new streak is a
multiple of 3 (which, the streak being positive, is equivalent to the
streak-at-least-3-and-divisible test in the code). -/
theorem checkAnswer_correct (s : EngineState) (q : Question)
    (h : s.currentQuestion = some q) :
    checkAnswer s q.correctAnswer =
      some ({ s with
                score := s.score + 1 + (if (s.streak + 1) % 3 = 0 then 1 else 0)
                streak := s.streak + 1
                answeredCurrentQuestion := true },
            { isCorrect := true, streak := s.streak + 1, explanation := q.explanation }) := by
  unfold checkAnswer
  rw [h]
  dsimp only
  rw [if_pos rfl]
  split_ifs <;> first
    | rfl
    | (exfalso; omega)

/-- The state after answering the current question correctly. -/
theorem answerCorrectly_eq (s : EngineState) (q : Question)
    (h : s.currentQuestion = some q) :
    answerCorrectly s =
      { s with
          score := s.score + 1 + (if (s.streak + 1) % 3 = 0 then 1 else 0)
          streak := s.streak + 1
          answeredCurrentQuestion := true } := by
  unfold answerCorrectly
  rw [h]
  dsimp only
  rw [checkAnswer_correct s q h]
  simp [h]

/-- Claim C4: from a reset session (score 0, streak 0) six consecutive
correct answers give score 8; in general a correct answer adds one to score
and one to streak, plus one extra score point exactly when the resulting
streak is a positive multiple of 3. -/
theorem C4_streak_scoring :
    (∀ s q, s.currentQuestion = some q → s.score = 0 → s.streak = 0 →
      (answerCorrectly^[6] s).score = 8) ∧
    (∀ s q s2 res, s.currentQuestion = some q →
      checkAnswer s q.correctAnswer = some (s2, res) →
      s2.streak = s.streak + 1 ∧
      s2.score = s.score + 1 +
        (if (s.streak + 1) % 3 = 0 ∧ 0 < s.streak + 1 then 1 else 0)) := by
  constructor
  · intro s q h h0 hst
    have mk : ∀ (t : EngineState) (σ c : ℕ), t.currentQuestion = some q →
        t.streak = σ → t.score = c →
        (answerCorrectly t).currentQuestion = some q ∧
        (answerCorrectly t).streak = σ + 1 ∧
        (answerCorrectly t).score = c + 1 + (if (σ + 1) % 3 = 0 then 1 else 0) := by
      intro t σ c ht hσ hc
      rw [answerCorrectly_eq t q ht]
      refine ⟨ht, by simp [hσ], by simp [hσ, hc]⟩
    obtain ⟨c1, t1, v1⟩ := mk s 0 0 h hst h0
    norm_num at t1 v1
    obtain ⟨c2, t2, v2⟩ := mk _ 1 1 c1 t1 v1
    norm_num at t2 v2
    obtain ⟨c3, t3, v3⟩ := mk _ 2 2 c2 t2 v2
    norm_num at t3 v3
    obtain ⟨c4, t4, v4⟩ := mk _ 3 4 c3 t3 v3
    norm_num at t4 v4
    obtain ⟨c5, t5, v5⟩ := mk _ 4 5 c4 t4 v4
    norm_num at t5 v5
    obtain ⟨c6, t6, v6⟩ := mk _ 5 6 c5 t5 v5
    norm_num at t6 v6
    exact v6
  · intro s q s2 res h hc
    rw [checkAnswer_correct s q h] at hc
    simp only [Option.some.injEq, Prod.mk.injEq] at hc
    obtain ⟨hs2, -⟩ := hc
    subst hs2
    refine ⟨rfl, ?_⟩
    by_cases hb : (s.streak + 1) % 3 = 0
    · simp [hb]
    · simp [hb]

/-- A minimal concrete question used by engine-state witnesses. -/
def witQuestion : Question :=
  { qtype := .capital
    question := "What is the capital city of A?"
    correctAnswer := Opt.str "B"
    options := [Opt.str "B", Opt.str "Q", Opt.str "W", Opt.str "E"]
    explanation := "The capital of A is B."
    media := none
    country := "A" }

/-- A concrete engine state holding a current question. -/
def witState : EngineState :=
  { countries := [witCountry]
    currentQuestion := some witQuestion
    score := 0
    wrong := 0
    streak := 0
    questionNumber := 1
    totalQuestions := 10
    difficulty := "easy"
    answeredCurrentQuestion := false }

/-- Witness for C4_streak_scoring at a concrete state. -/
theorem C4_witness : (answerCorrectly^[6] witState).score = 8 :=
  C4_streak_scoring.1 witState witQuestion rfl rfl rfl

/-- Claim C5: for any session state with any prior streak, a submitted value
different from the correct answer of the current question zeroes the streak,
increments wrongCount by exactly one and leaves the score unchanged. -/
theorem C5_wrong_answer (s : EngineState) (q : Question) (ans : Opt)
    (s2 : EngineState) (res : CheckResult)
    (hq : s.currentQuestion = some q) (hne : ans ≠ q.correctAnswer)
    (h : checkAnswer s ans = some (s2, res)) :
    s2.streak = 0 ∧ s2.wrong = s.wrong + 1 ∧ s2.score = s.score := by
  unfold checkAnswer at h
  rw [hq] at h
  dsimp only at h
  rw [if_neg hne] at h
  simp only [Option.some.injEq, Prod.mk.injEq] at h
  obtain ⟨h1, -⟩ := h
  subst h1
  exact ⟨rfl, rfl, rfl⟩

/-- Witness for C5_wrong_answer at a concrete state and wrong submission. -/
theorem C5_witness :
    ∃ s2 res, checkAnswer witState (Opt.str "Z") = some (s2, res) ∧
      s2.streak = 0 ∧ s2.wrong = witState.wrong + 1 ∧ s2.score = witState.score := by
  refine ⟨_, _, rfl, ?_⟩
  exact C5_wrong_answer witState witQuestion (Opt.str "Z") _ _ rfl (by decide) rfl

/-- Claim C6 (counterexample): the level "constructor" is none of the three
known difficulty levels, yet setDifficulty with it is not a no-op: the
property access finds the truthy inherited Object.prototype.constructor, so
the code installs "constructor" as the difficulty and performs a reset,
changing the state. -/
theorem C6_counterexample :
    "constructor" ≠ "easy" ∧ "constructor" ≠ "medium" ∧ "constructor" ≠ "hard" ∧
    setDifficulty witState "constructor" ≠ witState ∧
    setDifficulty witState "constructor" =
      reset { witState with difficulty := "constructor" } := by
  decide

/-- Claim C6 (amended): setDifficulty with any level that is neither one of
the 3 known difficulty levels nor a property name inherited from
Object.prototype is a no-op — it does not throw and leaves the entire state
unchanged; each of the 3 valid levels sets difficultyLevel to that level and
performs a reset; an inherited Object.prototype property name (constructor,
toString, hasOwnProperty, ...) also takes the valid branch, setting
difficultyLevel to that name and performing a reset. -/
theorem C6_setDifficulty (s : EngineState) :
    (∀ level, level ≠ "easy" → level ≠ "medium" → level ≠ "hard" →
      level ∉ objectPrototypeProps → setDifficulty s level = s) ∧
    (∀ level, level = "easy" ∨ level = "medium" ∨ level = "hard" →
      setDifficulty s level = reset { s with difficulty := level } ∧
      (setDifficulty s level).difficulty = level) ∧
    (∀ level, level ∈ objectPrototypeProps →
      setDifficulty s level = reset { s with difficulty := level }) := by
  refine ⟨?_, ?_, ?_⟩
  · intro level h1 h2 h3 h4
    unfold setDifficulty difficultySettingsLookup difficultySettings
    rw [if_neg h1, if_neg h2, if_neg h3, if_neg h4]
  · intro level h
    rcases h with h | h | h <;> subst h <;> exact ⟨rfl, rfl⟩
  · intro level h
    fin_cases h <;> rfl

/-- Witness for C6_setDifficulty: an unknown level is ignored, a valid one
resets, and an inherited property name also resets. -/
theorem C6_witness :
    setDifficulty witState "ultra" = witState ∧
    setDifficulty witState "hard" = reset { witState with difficulty := "hard" } ∧
    setDifficulty witState "toString" =
      reset { witState with difficulty := "toString" } :=
  ⟨(C6_setDifficulty witState).1 "ultra" (by decide) (by decide) (by decide) (by decide),
   ((C6_setDifficulty witState).2.1 "hard" (Or.inr (Or.inr rfl))).1,
   (C6_setDifficulty witState).2.2 "toString" (by decide)⟩

/-- Claim C10: checkAnswer touches only score, wrong, streak and the
answered flag; difficulty, questionNumber, totalQuestions, the loaded
country collection and the current question are unchanged, whether the
submission is correct or not. -/
theorem C10_checkAnswer_frame (s : EngineState) (ans : Opt) (s2 : EngineState)
    (res : CheckResult) (h : checkAnswer s ans = some (s2, res)) :
    s2.difficulty = s.difficulty ∧ s2.questionNumber = s.questionNumber ∧
    s2.totalQuestions = s.totalQuestions ∧ s2.countries = s.countries ∧
    s2.currentQuestion = s.currentQuestion := by
  unfold checkAnswer at h
  rcases hcq : s.currentQuestion with _ | q
  · rw [hcq] at h
    exact absurd h (by simp)
  · rw [hcq] at h
    dsimp only at h
    split_ifs at h <;>
      (simp only [Option.some.injEq, Prod.mk.injEq] at h
       obtain ⟨h1, -⟩ := h
       subst h1
       exact ⟨rfl, rfl, rfl, rfl, hcq.symm ▸ rfl⟩)

/-- Witness for C10_checkAnswer_frame at a concrete state. -/
theorem C10_witness :
    ∃ s2 res, checkAnswer witState (Opt.str "B") = some (s2, res) ∧
      s2.questionNumber = witState.questionNumber ∧
      s2.currentQuestion = witState.currentQuestion := by
  refine ⟨_, _, rfl, ?_⟩
  have h := C10_checkAnswer_frame witState (Opt.str "B") _ _ rfl
  exact ⟨h.2.1, h.2.2.2.2⟩

/-- A question-yielding nextQuestion call advances the index by exactly one
and can only happen strictly below the session length. -/
theorem nextQuestion_yield (s : EngineState) (r : Rng) (s2 : EngineState) (r2 : Rng)
    (q : Question) (h : nextQuestion s r = some (s2, r2, some q)) :
    s2.questionNumber = s.questionNumber + 1 ∧ s2.totalQuestions = s.totalQuestions ∧
    s.questionNumber < s.totalQuestions := by
  unfold nextQuestion at h
  split_ifs at h with hge
  · exact absurd h (by simp)
  · rcases hg : generateQuestion s r with _ | ⟨q0, r0⟩
    · rw [hg] at h
      exact absurd h (by simp)
    · rw [hg] at h
      simp only [Option.some.injEq, Prod.mk.injEq] at h
      obtain ⟨h1, -⟩ := h
      subst h1
      exact ⟨rfl, rfl, by omega⟩

/-- A completed-session nextQuestion call returns the null question and the
unchanged state. -/
theorem nextQuestion_done (s : EngineState) (r : Rng)
    (h : s.totalQuestions ≤ s.questionNumber) :
    nextQuestion s r = some (s, r, none) := by
  unfold nextQuestion
  rw [if_pos (by omega)]

/-- A nextQuestion call that reports completion leaves the state unchanged. -/
theorem nextQuestion_none (s : EngineState) (r : Rng) (s2 : EngineState) (r2 : Rng)
    (h : nextQuestion s r = some (s2, r2, none)) : s2 = s := by
  unfold nextQuestion at h
  split_ifs at h with hge
  · simp only [Option.some.injEq, Prod.mk.injEq] at h
    exact h.1.symm
  · rcases hg : generateQuestion s r with _ | ⟨q0, r0⟩
    · rw [hg] at h
      exact absurd h (by simp)
    · rw [hg] at h
      exact absurd h (by simp)

/-- n question-yielding calls advance the index by exactly n and preserve
the session length. -/
theorem runNextQuestions_count : ∀ (n : ℕ) (s : EngineState) (r : Rng)
    (s2 : EngineState) (r2 : Rng), runNextQuestions n s r = some (s2, r2) →
    s2.questionNumber = s.questionNumber + n ∧ s2.totalQuestions = s.totalQuestions := by
  intro n
  induction n with
  | zero =>
    intro s r s2 r2 h
    simp only [runNextQuestions, Option.some.injEq, Prod.mk.injEq] at h
    obtain ⟨h1, -⟩ := h
    subst h1
    exact ⟨rfl, rfl⟩
  | succ k ih =>
    intro s r s2 r2 h
    unfold runNextQuestions at h
    rcases hn : nextQuestion s r with _ | ⟨s1, r1, oq⟩
    · rw [hn] at h
      exact absurd h (by simp)
    · rcases oq with _ | q
      · rw [hn] at h
        exact absurd h (by simp)
      · rw [hn] at h
        dsimp only at h
        obtain ⟨e1, e2, -⟩ := nextQuestion_yield s r s1 r1 q hn
        obtain ⟨f1, f2⟩ := ih s1 r1 s2 r2 h
        exact ⟨by omega, by rw [f2, e2]⟩

/-- Claim C7: the invariant questionIndex at most totalQuestions is preserved
by nextQuestion, checkAnswer, reset and setDifficulty; after totalQuestions
question-yielding calls from a reset state the index equals totalQuestions,
and the next call returns the null question without modifying the state. -/
theorem C7_question_index (s : EngineState) (r : Rng)
    (hinv : s.questionNumber ≤ s.totalQuestions) :
    (∀ s2 r2 oq, nextQuestion s r = some (s2, r2, oq) →
      s2.questionNumber ≤ s2.totalQuestions) ∧
    (∀ ans s2 res, checkAnswer s ans = some (s2, res) →
      s2.questionNumber ≤ s2.totalQuestions) ∧
    ((reset s).questionNumber ≤ (reset s).totalQuestions) ∧
    (∀ level, (setDifficulty s level).questionNumber ≤
      (setDifficulty s level).totalQuestions) ∧
    (s.questionNumber = s.totalQuestions → nextQuestion s r = some (s, r, none)) ∧
    (∀ s2 r2, runNextQuestions (reset s).totalQuestions (reset s) r = some (s2, r2) →
      s2.questionNumber = s2.totalQuestions ∧
      ∀ r3, nextQuestion s2 r3 = some (s2, r3, none)) := by
  refine ⟨?_, ?_, ?_, ?_, ?_, ?_⟩
  · intro s2 r2 oq h
    rcases oq with _ | q
    · rw [nextQuestion_none s r s2 r2 h]
      exact hinv
    · obtain ⟨e1, e2, e3⟩ := nextQuestion_yield s r s2 r2 q h
      omega
  · intro ans s2 res h
    unfold checkAnswer at h
    rcases hcq : s.currentQuestion with _ | q
    · rw [hcq] at h
      exact absurd h (by simp)
    · rw [hcq] at h
      dsimp only at h
      split_ifs at h <;>
        (simp only [Option.some.injEq, Prod.mk.injEq] at h
         obtain ⟨h1, -⟩ := h
         subst h1
         exact hinv)
  · exact Nat.zero_le _
  · intro level
    unfold setDifficulty
    rcases hd : difficultySettingsLookup level with st | _ | _
    · exact Nat.zero_le _
    · exact Nat.zero_le _
    · exact hinv
  · intro he
    exact nextQuestion_done s r (by omega)
  · intro s2 r2 h
    obtain ⟨e1, e2⟩ := runNextQuestions_count _ _ _ _ _ h
    have hq2 : s2.questionNumber = s2.totalQuestions := by
      simp only [reset] at e1 e2
      omega
    exact ⟨hq2, fun r3 => nextQuestion_done s2 r3 (by omega)⟩

/-- A concrete state for the C7 witness: one-question session, question from
the single-country pool. -/
def witRunState : EngineState :=
  { countries := [witCountry]
    currentQuestion := none
    score := 0
    wrong := 0
    streak := 0
    questionNumber := 0
    totalQuestions := 1
    difficulty := "easy"
    answeredCurrentQuestion := false }

/-- Witness for C7_question_index: a full one-question run from a reset
state ends with the index equal to the session length. -/
theorem C7_witness :
    ∃ s2 r2, runNextQuestions (reset witRunState).totalQuestions (reset witRunState) [] =
        some (s2, r2) ∧ s2.questionNumber = s2.totalQuestions := by
  refine ⟨_, _, rfl, ?_⟩
  exact ((C7_question_index witRunState [] (by decide)).2.2.2.2.2 _ _ rfl).1

/-- Claim C8: the difficulty pool is always a prefix of the loaded
(popularity-sorted) list, capped at 30 for easy (inside the top-50
restriction), 100 for medium and 200 for hard; when fewer records exist
than the cap, all of them are returned — in particular 120 countries give
at most 30 top-50 records on easy and all 120 on hard. -/
theorem C8_difficulty_pool (l : List Country) :
    getCountriesForDifficulty "easy" l = some ((l.take 50).take 30) ∧
    getCountriesForDifficulty "medium" l = some (l.take 100) ∧
    getCountriesForDifficulty "hard" l = some (l.take 200) ∧
    (∀ p, getCountriesForDifficulty "easy" l = some p →
      p.length ≤ 30 ∧ (∀ x ∈ p, x ∈ l.take 50) ∧ ∃ n, p = l.take n) ∧
    (∀ p, getCountriesForDifficulty "medium" l = some p →
      p.length ≤ 100 ∧ ∃ n, p = l.take n) ∧
    (∀ p, getCountriesForDifficulty "hard" l = some p →
      p.length ≤ 200 ∧ ∃ n, p = l.take n) ∧
    (l.length ≤ 30 → getCountriesForDifficulty "easy" l = some l) ∧
    (l.length ≤ 100 → getCountriesForDifficulty "medium" l = some l) ∧
    (l.length = 120 → getCountriesForDifficulty "hard" l = some l) := by
  have he : getCountriesForDifficulty "easy" l = some ((l.take 50).take 30) := rfl
  have hm : getCountriesForDifficulty "medium" l = some (l.take 100) := rfl
  have hh : getCountriesForDifficulty "hard" l = some (l.take 200) := rfl
  refine ⟨he, hm, hh, ?_, ?_, ?_, ?_, ?_, ?_⟩
  · intro p hp
    rw [he] at hp
    simp only [Option.some.injEq] at hp
    subst hp
    refine ⟨?_, ?_, 30, ?_⟩
    · simp
    · intro x hx
      exact List.take_subset _ _ hx
    · rw [List.take_take]
      norm_num
  · intro p hp
    rw [hm] at hp
    simp only [Option.some.injEq] at hp
    subst hp
    exact ⟨by simp, 100, rfl⟩
  · intro p hp
    rw [hh] at hp
    simp only [Option.some.injEq] at hp
    subst hp
    exact ⟨by simp, 200, rfl⟩
  · intro hl
    rw [he, List.take_take]
    norm_num
    exact hl
  · intro hl
    rw [hm, List.take_of_length_le hl]
  · intro hl
    rw [hh, List.take_of_length_le (by omega)]

/-- Witness for C8_difficulty_pool: 120 loaded countries are all returned on
hard. -/
theorem C8_witness :
    getCountriesForDifficulty "hard" (List.replicate 120 witCountry) =
      some (List.replicate 120 witCountry) :=
  (C8_difficulty_pool (List.replicate 120 witCountry)).2.2.2.2.2.2.2.2 (by simp)

/-- Claim C9: the formatting functions reproduce the specified encodings
exactly on the specified sample values, through the billion/million and
trillion/billion/million threshold tiers. -/
theorem C9_formatting :
    formatPopulation 1500000000 = "1.50 billion" ∧
    formatPopulation 25000000 = "25.0 million" ∧
    formatGDP 2000000000000 = "$2.00 trillion" ∧
    formatArea 17075400 = "17,075,400 km²" := by
  refine ⟨by decide, by decide, by decide, by decide⟩

end TopRacer
